import Mathlib

/-!
Verification of the vector provider engine.

Shallow embedding of src/vector/core/base.py, src/vector/core/discuz.py and
src/vector/core/db.py.  External collaborators (the aiohttp transport, the
BeautifulSoup HTML traversal, the random generator, the Mongo driver) are
modelled as oracles passed in as parameters; everything the repository itself
computes is translated directly from the source.
-/

/-- A parameter map as carried in a Python dict of strings: an association
list in insertion order. -/
abbrev Params := List (String × String)

/-- Python dict assignment `m[k] = v`: overwrite in place if the key exists,
otherwise append at the end (insertion order is preserved). -/
def dictInsert (m : Params) (k v : String) : Params :=
  if m.any (fun p => p.1 = k) then
    m.map (fun p => if p.1 = k then (k, v) else p)
  else m ++ [(k, v)]

/-- Substring test, as the Python operator `needle in hay` on str. -/
def containsSub (needle hay : String) : Bool :=
  decide (List.IsInfix needle.toList hay.toList)

/-- Python `s.lower()` on header names (ASCII case folding, which is all the
HTTP header comparison needs). -/
def lowerStr (s : String) : String :=
  String.mk (s.toList.map Char.toLower)

/-- Python `s.strip("/")`: remove all leading and trailing slash characters. -/
def stripSlashes (s : String) : String :=
  String.mk (((s.toList.dropWhile (fun c => c = '/')).reverse.dropWhile
    (fun c => c = '/')).reverse)

/-- The keyword arguments a caller may pass down to BaseProvider.fetch:
an optional headers dict, an optional numeric timeout, an optional ssl flag,
and whether a truthy json payload is among the kwargs. -/
structure FetchKwargs where
  headers : Params
  timeout : Option Nat
  ssl : Option Bool
  hasJson : Bool
  deriving Repr, DecidableEq

/-- The default kwargs: no headers, no timeout, no ssl flag, no json. -/
def FetchKwargs.none : FetchKwargs := ⟨[], Option.none, Option.none, false⟩

/-- The default User-Agent string injected by BaseProvider.fetch. -/
def defaultUserAgent : String :=
  "Mozilla/5.0 (Windows NT 10.0; Win64; x64) AppleWebKit/537.36 (KHTML, like Gecko) Chrome/136.0.0.0 Safari/537.36 Edg/136.0.0.0"

/-- The fully assembled HTTP request handed to the aiohttp session by
BaseProvider.fetch. -/
structure FetchRequest where
  method : String
  url : String
  data : Option Params
  headers : Params
  timeoutTotal : Nat
  sslEnabled : Bool
  deriving Repr, DecidableEq

/-- Python truthiness of the optional data dict: None and the empty dict are
falsy. -/
def dataTruthy : Option Params → Bool
  | Option.none => false
  | some [] => false
  | some (_ :: _) => true

/-- BaseProvider.fetch, the pure request-assembly part (base.py lines
138-181): inject the default User-Agent when no user-agent header is present
under case-insensitive comparison, default the timeout to 30, default ssl to
False, and escalate the method to POST when a truthy data or json payload is
present. -/
def prepareFetch (url : String) (data : Option Params) (method : String)
    (kw : FetchKwargs) : FetchRequest :=
  let headers :=
    if kw.headers.any (fun p => lowerStr p.1 = "user-agent") then kw.headers
    else dictInsert kw.headers "User-Agent" defaultUserAgent
  let timeout := kw.timeout.getD 30
  let ssl := kw.ssl.getD false
  let method := if dataTruthy data || kw.hasJson then "POST" else method
  ⟨method, url, data, headers, timeout, ssl⟩

/-- The HTTP transport oracle: what the remote site answers (the body text of
the response) to each assembled request.  Stands for the aiohttp session. -/
structure HttpEnv where
  resp : FetchRequest → String

/-- BaseProvider.fetch against a transport oracle, threading a log of the
requests issued so far: returns the response body and the extended log. -/
def fetch (env : HttpEnv) (log : List FetchRequest) (url : String)
    (data : Option Params) (method : String) (kw : FetchKwargs) :
    String × List FetchRequest :=
  let req := prepareFetch url data method kw
  (env.resp req, log ++ [req])

/-- The exception raised by BaseDiscuzProvider.request when the logout
marker is absent from a response body. -/
inductive DzError
  | authenticationError
  deriving Repr, DecidableEq

/-- BaseDiscuzProvider.request (discuz.py lines 181-194) threading the
request log: fetch the url, then demand the logout-affordance marker
`action=logout` in the body; raise AuthenticationError when it is absent. -/
def request_log (env : HttpEnv) (log : List FetchRequest) (url : String)
    (data : Option Params) (method : String) (kw : FetchKwargs) :
    Except DzError (String × List FetchRequest) :=
  let r := fetch env log url data method kw
  if containsSub "action=logout" r.1 then Except.ok r
  else Except.error DzError.authenticationError

/-- BaseDiscuzProvider.request as the caller sees it: just the body text. -/
def request (env : HttpEnv) (url : String) (data : Option Params)
    (method : String) (kw : FetchKwargs) : Except DzError String :=
  (request_log env [] url data method kw).map Prod.fst

/-- C1: for every response body fetched through request(), if the body does
not contain the marker `action=logout` then request() raises
AuthenticationError and returns nothing, and if the marker is present then
request() returns exactly that body text. -/
theorem request_auth_check (env : HttpEnv) (url : String) (data : Option Params)
    (method : String) (kw : FetchKwargs) :
    let body := env.resp (prepareFetch url data method kw)
    (containsSub "action=logout" body = false →
      request env url data method kw = Except.error DzError.authenticationError) ∧
    (containsSub "action=logout" body = true →
      request env url data method kw = Except.ok body) := by
  constructor <;> intro h <;>
    simp [request, request_log, fetch, h, Except.map]

/-- A transport whose every response lacks the logout marker. -/
def envNoLogout : HttpEnv := ⟨fun _ => "<p>log in</p>"⟩

/-- A transport whose every response carries the logout marker. -/
def envLogout : HttpEnv := ⟨fun _ => "<a>action=logout</a>ok"⟩

/-- Witness for C1 at a concrete transport: a body without the marker is
rejected, a body with it is returned verbatim. -/
theorem request_auth_check_witness :
    containsSub "action=logout"
        (envNoLogout.resp (prepareFetch "http://x/a" Option.none "GET" FetchKwargs.none)) = false ∧
    request envNoLogout "http://x/a" Option.none "GET" FetchKwargs.none =
      Except.error DzError.authenticationError ∧
    containsSub "action=logout"
        (envLogout.resp (prepareFetch "http://x/a" Option.none "GET" FetchKwargs.none)) = true ∧
    request envLogout "http://x/a" Option.none "GET" FetchKwargs.none =
      Except.ok "<a>action=logout</a>ok" :=
  ⟨by decide,
   (request_auth_check envNoLogout "http://x/a" Option.none "GET" FetchKwargs.none).1
     (by decide),
   by decide,
   (request_auth_check envLogout "http://x/a" Option.none "GET" FetchKwargs.none).2
     (by decide)⟩

/-- C7: every call assembled by the fetch primitive gets the default
User-Agent when no user-agent header was supplied under case-insensitive
comparison, is escalated to POST whenever a truthy body is present, has TLS
verification disabled by default, and has a default timeout of 30. -/
theorem prepareFetch_defaults (url : String) (data : Option Params)
    (method : String) (kw : FetchKwargs) :
    (kw.headers.any (fun p => lowerStr p.1 = "user-agent") = false →
      ("User-Agent", defaultUserAgent) ∈ (prepareFetch url data method kw).headers) ∧
    (dataTruthy data = true → (prepareFetch url data method kw).method = "POST") ∧
    (kw.ssl = Option.none → (prepareFetch url data method kw).sslEnabled = false) ∧
    (kw.timeout = Option.none → (prepareFetch url data method kw).timeoutTotal = 30) := by
  refine ⟨fun h => ?_, fun h => ?_, fun h => ?_, fun h => ?_⟩
  · have h2 : (kw.headers.any fun p => p.1 = "User-Agent") = false := by
      by_contra hne
      rw [Bool.not_eq_false, List.any_eq_true] at hne
      obtain ⟨p, hp, hpe⟩ := hne
      rw [List.any_eq_false] at h
      have h3 := h p hp
      simp only [decide_eq_true_eq] at hpe h3
      exact h3 (by rw [hpe]; decide)
    simp [prepareFetch, h, dictInsert, h2]
  · simp [prepareFetch, h]
  · simp [prepareFetch, h]
  · simp [prepareFetch, h]

/-- Witness for C7 at a concrete call with empty kwargs and a one-entry
body. -/
theorem prepareFetch_defaults_witness :
    ("User-Agent", defaultUserAgent) ∈
        (prepareFetch "http://x/b" (some [("k", "v")]) "GET" FetchKwargs.none).headers ∧
    (prepareFetch "http://x/b" (some [("k", "v")]) "GET" FetchKwargs.none).method = "POST" ∧
    (prepareFetch "http://x/b" (some [("k", "v")]) "GET" FetchKwargs.none).sslEnabled = false ∧
    (prepareFetch "http://x/b" (some [("k", "v")]) "GET" FetchKwargs.none).timeoutTotal = 30 :=
  ⟨(prepareFetch_defaults "http://x/b" (some [("k", "v")]) "GET" FetchKwargs.none).1
     (by decide),
   (prepareFetch_defaults "http://x/b" (some [("k", "v")]) "GET" FetchKwargs.none).2.1
     (by decide),
   (prepareFetch_defaults "http://x/b" (some [("k", "v")]) "GET" FetchKwargs.none).2.2.1
     rfl,
   (prepareFetch_defaults "http://x/b" (some [("k", "v")]) "GET" FetchKwargs.none).2.2.2
     rfl⟩

/-- One input element of a parsed form: an optional name attribute and an
optional value attribute, as BeautifulSoup exposes them through get. -/
structure DzInput where
  name : Option String
  value : Option String
  deriving Repr, DecidableEq

/-- One parsed form element: its action attribute and its input elements in
document order. -/
structure DzForm where
  action : Option String
  inputs : List DzInput
  deriving Repr, DecidableEq

/-- A parsed document, as the engine consumes it: select_one over a CSS
selector, yielding at most one form.  Stands for the BeautifulSoup object. -/
def Soup := String → Option DzForm

/-- The body of the input loop in _extract_form_params.  The source guards
the store with the Python truthiness check on the name, so an input whose
name attribute is missing (None) or present but empty (the empty string is
falsy) is skipped; otherwise name maps-to (value or empty string) goes into
the dict. -/
def formStep (ps : Params) (i : DzInput) : Params :=
  match i.name with
  | Option.none => ps
  | some n => if n = "" then ps else dictInsert ps n (i.value.getD "")

/-- The name of an input as the truthiness check sees it: none when the
attribute is absent or empty, the name otherwise. -/
def truthyName (i : DzInput) : Option String :=
  match i.name with
  | Option.none => Option.none
  | some n => if n = "" then Option.none else some n

/-- The input loop body acts on the truthy name. -/
theorem formStep_truthy (ps : Params) (i : DzInput) :
    formStep ps i =
      match truthyName i with
      | Option.none => ps
      | some n => dictInsert ps n (i.value.getD "") := by
  unfold formStep truthyName
  cases i.name with
  | none => rfl
  | some k => by_cases hk : k = "" <;> simp [hk]

/-- A missing name attribute has no truthy name. -/
theorem truthyName_none (i : DzInput) (h : i.name = Option.none) :
    truthyName i = Option.none := by
  unfold truthyName
  rw [h]

/-- An empty name attribute has no truthy name either. -/
theorem truthyName_empty (i : DzInput) (h : i.name = some "") :
    truthyName i = Option.none := by
  unfold truthyName
  rw [h]
  exact rfl

/-- A present nonempty name attribute is its own truthy name. -/
theorem truthyName_nonempty (i : DzInput) (k : String) (h : i.name = some k)
    (hk : k ≠ "") : truthyName i = some k := by
  unfold truthyName
  rw [h]
  show (if k = "" then Option.none else some k) = some k
  rw [if_neg hk]

/-- The truthy name is the present-and-nonempty name attribute. -/
theorem truthyName_eq_some (i : DzInput) (n : String) :
    truthyName i = some n ↔ i.name = some n ∧ n ≠ "" := by
  constructor
  · intro h
    cases hni : i.name with
    | none =>
        rw [truthyName_none i hni] at h
        exact absurd h (by simp)
    | some k =>
        by_cases hk : k = ""
        · rw [truthyName_empty i (by rw [hni, hk])] at h
          exact absurd h (by simp)
        · rw [truthyName_nonempty i k hni hk] at h
          have hkn : k = n := Option.some_inj.mp h
          exact ⟨by rw [hkn], fun hn => hk (by rw [hkn, hn])⟩
  · rintro ⟨h1, h2⟩
    exact truthyName_nonempty i n h1 h2

/-- BaseDiscuzProvider._extract_form_params (discuz.py lines 164-179):
select the form, then run the input loop over its inputs in document
order starting from the empty dict. -/
def extract_form_params (soup : Soup) (selector : String) : Params :=
  match soup selector with
  | Option.none => []
  | some form => form.inputs.foldl formStep []

/-- The fixed sign-in endpoint sign() fetches first. -/
def signUrl (baseUrl : String) : String :=
  baseUrl ++ "/plugin.php?id=dsu_paulsign:sign"

/-- The sign form action attribute as sign() reads it: empty when the form
is absent or has no action attribute. -/
def signActionAttr (soup : Soup) (formName : String) : String :=
  match soup formName with
  | some form => form.action.getD ""
  | Option.none => ""

/-- The parameters sign() assembles: the extracted form fields plus the
fixed todaysay entry. -/
def signParams (soup : Soup) (formName : String) : Params :=
  dictInsert (extract_form_params soup formName) "todaysay" "hello"

/-- The action url sign() posts to: the action attribute stripped of
slashes, resolved against the base url, with the inajax marker appended. -/
def signAction (baseUrl : String) (soup : Soup) (formName : String) : String :=
  baseUrl ++ "/" ++ stripSlashes (signActionAttr soup formName) ++ "&inajax=1"

/-- BaseDiscuzProvider.sign (discuz.py lines 43-63), threading the request
log and taking the HTML parser as an oracle.  Fetch the sign page through
request(); if the already-signed marker is in the body, return it at once;
otherwise extract the sign form fields, add the fixed todaysay parameter,
resolve the form action against the base url with the inajax marker, and
fetch (POST, since the data dict is nonempty) the assembled parameters. -/
def sign_run (env : HttpEnv) (parse : String → Soup) (baseUrl : String)
    (signText formName : String) (kw : FetchKwargs) :
    Except DzError (String × List FetchRequest) :=
  match request_log env [] (signUrl baseUrl) Option.none "GET" kw with
  | Except.error e => Except.error e
  | Except.ok (result, log1) =>
      if containsSub signText result then Except.ok (signText, log1)
      else
        let soup := parse result
        let r2 := fetch env log1 (signAction baseUrl soup formName)
          (some (signParams soup formName)) "GET" kw
        Except.ok (r2.1, r2.2)

/-- BaseDiscuzProvider.sign as the caller sees it: only the returned text. -/
def sign (env : HttpEnv) (parse : String → Soup) (baseUrl : String)
    (signText formName : String) (kw : FetchKwargs) : Except DzError String :=
  (sign_run env parse baseUrl signText formName kw).map Prod.fst

/-- The class constants of BaseDiscuzProvider (discuz.py lines 17-21). -/
def VIEW_COUNT : Nat := 11

/-- Population threshold guard constant. -/
def MIN_USER_COUNT : Nat := 2

/-- Default number of pokes sent per run. -/
def POKE_DEFAULT_NUM : Nat := 10

/-- Default icon id sent with each poke. -/
def POKE_DEFAULT_ICONID : Nat := 3

/-- The fixed user-search listing url queried by get_users. -/
def userSearchPath : String :=
  "/home.php?gender=0&startage=&endage=&avatarstatus=1&username=&searchsubmit=true&op=sex&mod=spacecp&ac=search&type=base"

/-- BaseDiscuzProvider.get_users (discuz.py lines 85-110): fetch the fixed
user-search listing through request() and scan the markup for UIDs.  The
scan stage (BeautifulSoup traversal of ul.buddy li.bbda anchors plus the
UID_PATTERN regex on each href) is external markup parsing, taken as the
oracle scanUids. -/
def get_users (env : HttpEnv) (scanUids : String → List String)
    (baseUrl : String) (kw : FetchKwargs) : Except DzError (List String) :=
  let userUrl := baseUrl ++ userSearchPath
  match request_log env [] userUrl Option.none "GET" kw with
  | Except.error e => Except.error e
  | Except.ok (html, _) => Except.ok (scanUids html)

/-- random.choice over the scanned uid list, with the random generator taken
as the oracle pick: draw number i lands on index pick i modulo the
population size (every index is reachable, repeats allowed - sampling with
replacement). -/
def sampleUids (uidList : List String) (pick : Nat → Nat) (n : Nat) :
    List String :=
  (List.range n).map (fun i => uidList.getD (pick i % uidList.length) "")

/-- BaseDiscuzProvider.views (discuz.py lines 65-83) with the per-uid fetch
urls kept as an observable: guard on the population size, then sample
VIEW_COUNT uids with replacement and fetch each profile page concurrently
(dispatch order is the sampled order). -/
def views_run (env : HttpEnv) (scanUids : String → List String)
    (pick : Nat → Nat) (baseUrl : String) (kw : FetchKwargs) :
    Except DzError (String × List String) :=
  match get_users env scanUids baseUrl kw with
  | Except.error e => Except.error e
  | Except.ok uidList =>
      if uidList.length ≤ MIN_USER_COUNT then Except.ok ("No users found", [])
      else
        let selectedUids := sampleUids uidList pick VIEW_COUNT
        let urls := selectedUids.map
          (fun uid => baseUrl ++ "/space-uid-" ++ uid ++ ".html")
        Except.ok ("Viewed " ++ toString selectedUids.length ++ " user profiles", urls)

/-- BaseDiscuzProvider.views as the caller sees it: only the summary text. -/
def views (env : HttpEnv) (scanUids : String → List String)
    (pick : Nat → Nat) (baseUrl : String) (kw : FetchKwargs) :
    Except DzError String :=
  (views_run env scanUids pick baseUrl kw).map Prod.fst

/-- BaseDiscuzProvider._send_poke (discuz.py lines 146-162): fetch the poke
page for one uid through request() (so an absent logout marker raises),
extract the ct form fields, override iconid and note, append the inajax
marker to the poke url and fetch (POST) the parameters; report whether the
success marker is in the response body. -/
def send_poke (env : HttpEnv) (parse : String → Soup) (baseUrl : String)
    (uid : String) (iconid : Nat) (successText : String) (kw : FetchKwargs) :
    Except DzError Bool :=
  let pokeUrl := baseUrl ++ "/home.php?mod=spacecp&ac=poke&op=send&uid=" ++ uid
  match request_log env [] pokeUrl Option.none "GET" kw with
  | Except.error e => Except.error e
  | Except.ok (text, log1) =>
      let soup := parse text
      let params := dictInsert
        (dictInsert (extract_form_params soup "#ct form") "iconid" (toString iconid))
        "note" "hello"
      let action := pokeUrl ++ "&inajax=1"
      let r2 := fetch env log1 action (some params) "GET" kw
      Except.ok (containsSub successText r2.1)

/-- Python `x or default` on an optional integer argument: None and 0 are
both falsy, so both fall back to the class default. -/
def orDefaultNat (v : Option Nat) (d : Nat) : Nat :=
  match v with
  | Option.none => d
  | some n => if n = 0 then d else n

/-- The confirmation string poke() renders for one confirmed uid. -/
def pokeMsg (uid : String) : String :=
  "用户 " ++ uid ++ " 的打招呼消息已发送。"

/-- BaseDiscuzProvider.poke (discuz.py lines 112-144) with the sampled uid
list kept as an observable: resolve the falsy-fallback defaults, scan the
population, guard on its size, sample pokeNum uids with replacement,
dispatch one _send_poke per sampled uid concurrently collecting exceptions
(asyncio.gather with return_exceptions), then walk the results by index
paired with the sampled uid at the same index and keep a confirmation
string for every result that is no exception and truthy. -/
def poke_run (env : HttpEnv) (parse : String → Soup)
    (scanUids : String → List String) (pick : Nat → Nat) (baseUrl : String)
    (successText : String) (pokeNum iconid : Option Nat) (kw : FetchKwargs) :
    Except DzError (List String × List String) :=
  let pokeNumR := orDefaultNat pokeNum POKE_DEFAULT_NUM
  let iconidR := orDefaultNat iconid POKE_DEFAULT_ICONID
  match get_users env scanUids baseUrl kw with
  | Except.error e => Except.error e
  | Except.ok uidList =>
      if uidList.length ≤ MIN_USER_COUNT then Except.ok ([], [])
      else
        let selectedUids := sampleUids uidList pick pokeNumR
        let pokeResults := selectedUids.map
          (fun uid => send_poke env parse baseUrl uid iconidR successText kw)
        let result := (selectedUids.zip pokeResults).filterMap
          (fun p =>
            match p.2 with
            | Except.ok true => some (pokeMsg p.1)
            | _ => Option.none)
        Except.ok (result, selectedUids)

/-- BaseDiscuzProvider.poke as the caller sees it: only the confirmation
strings. -/
def poke (env : HttpEnv) (parse : String → Soup)
    (scanUids : String → List String) (pick : Nat → Nat) (baseUrl : String)
    (successText : String) (pokeNum iconid : Option Nat) (kw : FetchKwargs) :
    Except DzError (List String) :=
  (poke_run env parse scanUids pick baseUrl successText pokeNum iconid kw).map Prod.fst

/-- Opaque provider configuration data as stored in one record. -/
abbrev ProviderData := List (String × String)

/-- HandlerResult (base.py lines 9-34): tagged success or failure with a
message, optional opaque data and optional error detail. -/
structure HandlerResult where
  success : Bool
  message : String
  data : Option String
  error : Option String
  deriving Repr, DecidableEq

/-- HandlerResult.ok factory. -/
def HandlerResult.ok (message : String) (data : Option String) : HandlerResult :=
  ⟨true, message, data, Option.none⟩

/-- HandlerResult.fail factory. -/
def HandlerResult.fail (message : String) (error : Option String) : HandlerResult :=
  ⟨false, message, Option.none, error⟩

/-- The log lines BaseProvider.run emits, one constructor per logging call
site in base.py lines 98-136. -/
inductive LogEntry
  | warningNoProviders (providerType : String)
  | processing (name : String)
  | success (name message : String)
  | failure (name message : String) (error : Option String)
  | handlerException (name e : String)
  | errorInRun (e : String)
  deriving Repr, DecidableEq

/-- The environment BaseProvider.run works in: the store connect step, the
enabled-record query (already sorted by name by the store), the per-record
handler (the polymorphic provider logic, which may raise), and the close
step (db.close plus close_session in the finally clause).  Each fallible
step is an Except whose error is the exception text it raises. -/
structure RunEnv where
  providerType : String
  connect : Except String Unit
  getProviders : Except String (List (String × ProviderData))
  handler : String → ProviderData → Except String HandlerResult
  close : Except String Unit

/-- What one iteration of the batch loop logs for one record: the processing
line, then either the success line, the failure line (with optional error
detail), or the handler-exception line when the handler raises; the inner
except clause confines the exception to this record. -/
def processRecord (env : RunEnv) (record : String × ProviderData) :
    List LogEntry :=
  LogEntry.processing record.1 ::
    match env.handler record.1 record.2 with
    | Except.error e => [LogEntry.handlerException record.1 e]
    | Except.ok res =>
        if res.success then [LogEntry.success record.1 res.message]
        else [LogEntry.failure record.1 res.message res.error]

/-- The try block of BaseProvider.run: connect, query, then the batch loop;
the outer except clause turns any exception escaping those steps into the
error-in-run log line (the per-record handler exceptions never reach it,
the inner except already consumed them). -/
def runBody (env : RunEnv) : List LogEntry :=
  match env.connect with
  | Except.error e => [LogEntry.errorInRun e]
  | Except.ok _ =>
      match env.getProviders with
      | Except.error e => [LogEntry.errorInRun e]
      | Except.ok [] => [LogEntry.warningNoProviders env.providerType]
      | Except.ok providers => (providers.map (processRecord env)).flatten

/-- The observable outcome of one BaseProvider.run call: the emitted log,
whether the finally clause invoked close (it always does), and the exception
that propagates out of run to its caller, if any.  Only the close step in
the finally clause can propagate: everything in the try block is caught. -/
structure RunOutcome where
  logs : List LogEntry
  closeCalled : Bool
  raised : Option String
  deriving Repr, DecidableEq

/-- BaseProvider.run (base.py lines 98-136). -/
def run (env : RunEnv) : RunOutcome :=
  let logs := runBody env
  match env.close with
  | Except.ok _ => ⟨logs, true, Option.none⟩
  | Except.error e => ⟨logs, true, some e⟩

/-- MongoDB.__init__ (db.py lines 18-23): read MONGO_URL from the
environment defaulting to the empty string, and raise ValueError when the
result is falsy; otherwise hold the url. -/
def MongoDB_init (mongoUrl : Option String) : Except String String :=
  let dbUrl := mongoUrl.getD ""
  if dbUrl = "" then Except.error "Environment variable MONGO_URL is not set"
  else Except.ok dbUrl

/-- The process brings up the store handle before any run: db.py line 127
constructs the module-level MongoDB instance at import, so a failing
MongoDB.__init__ aborts before run ever starts and no record is processed. -/
def startProcess (mongoUrl : Option String) (env : RunEnv) :
    Except String RunOutcome :=
  match MongoDB_init mongoUrl with
  | Except.error e => Except.error e
  | Except.ok _ => Except.ok (run env)

/-- Dict assignment puts the key in the map with the assigned value. -/
theorem mem_dictInsert_self (m : Params) (k v : String) :
    (k, v) ∈ dictInsert m k v := by
  unfold dictInsert
  by_cases hany : (m.any fun p => p.1 = k) = true
  · rw [if_pos hany]
    rw [List.any_eq_true] at hany
    obtain ⟨p, hp, hpk⟩ := hany
    simp only [decide_eq_true_eq] at hpk
    exact List.mem_map.mpr ⟨p, hp, by rw [if_pos hpk]⟩
  · rw [if_neg hany]
    exact List.mem_append_right _ (List.mem_singleton.mpr rfl)

/-- Every pair of the dict after an assignment was already there or is the
assigned pair. -/
theorem mem_dictInsert (m : Params) (k v n w : String)
    (h : (n, w) ∈ dictInsert m k v) : (n, w) ∈ m ∨ (n = k ∧ w = v) := by
  unfold dictInsert at h
  by_cases hany : (m.any fun p => p.1 = k) = true
  · rw [if_pos hany] at h
    obtain ⟨p, hp, hpe⟩ := List.mem_map.mp h
    by_cases hpk : p.1 = k
    · rw [if_pos hpk] at hpe
      exact Or.inr ⟨congrArg Prod.fst hpe.symm, congrArg Prod.snd hpe.symm⟩
    · rw [if_neg hpk] at hpe
      exact Or.inl (hpe ▸ hp)
  · rw [if_neg hany] at h
    rcases List.mem_append.mp h with h1 | h1
    · exact Or.inl h1
    · have := List.mem_singleton.mp h1
      exact Or.inr ⟨congrArg Prod.fst this, congrArg Prod.snd this⟩

/-- A key present before an assignment is still present after it. -/
theorem dictInsert_key_stable (m : Params) (k v n w : String)
    (h : (n, w) ∈ m) : ∃ w2, (n, w2) ∈ dictInsert m k v := by
  by_cases hn : n = k
  · exact ⟨v, hn ▸ mem_dictInsert_self m k v⟩
  · refine ⟨w, ?_⟩
    unfold dictInsert
    by_cases hany : (m.any fun p => p.1 = k) = true
    · rw [if_pos hany]
      exact List.mem_map.mpr ⟨(n, w), h, by rw [if_neg hn]⟩
    · rw [if_neg hany]
      exact List.mem_append_left _ h

/-- Assigning a fresh key appends the pair at the end. -/
theorem dictInsert_of_fresh (m : Params) (k v : String)
    (h : ∀ p ∈ m, p.1 ≠ k) : dictInsert m k v = m ++ [(k, v)] := by
  unfold dictInsert
  rw [if_neg]
  rw [List.any_eq_true]
  rintro ⟨p, hp, hpk⟩
  simp only [decide_eq_true_eq] at hpk
  exact h p hp hpk

/-- A dict is never empty after an assignment. -/
theorem dictInsert_ne_nil (m : Params) (k v : String) : dictInsert m k v ≠ [] :=
  List.ne_nil_of_mem (mem_dictInsert_self m k v)

/-- A dict that went through an assignment is a truthy POST body. -/
theorem dataTruthy_dictInsert (m : Params) (k v : String) :
    dataTruthy (some (dictInsert m k v)) = true := by
  cases hd : dictInsert m k v with
  | nil => exact absurd hd (dictInsert_ne_nil m k v)
  | cons p rest => rfl

/-- Soundness of the input loop: every pair in the final dict already stood
in the accumulator or comes from an input with a truthy name, with a
missing value read as the empty string. -/
theorem formStep_foldl_sound (inputs : List DzInput) :
    ∀ (acc : Params) (n w : String), (n, w) ∈ inputs.foldl formStep acc →
      (n, w) ∈ acc ∨ ∃ i ∈ inputs, truthyName i = some n ∧ w = i.value.getD "" := by
  induction inputs with
  | nil => exact fun acc n w h => Or.inl h
  | cons i rest ih =>
    intro acc n w h
    rw [List.foldl_cons] at h
    rcases ih (formStep acc i) n w h with h1 | ⟨j, hj, hjn, hjv⟩
    · rw [formStep_truthy] at h1
      cases htn : truthyName i with
      | none =>
          rw [htn] at h1
          exact Or.inl h1
      | some k =>
          rw [htn] at h1
          rcases mem_dictInsert _ _ _ _ _ h1 with h2 | ⟨h2, h3⟩
          · exact Or.inl h2
          · exact Or.inr ⟨i, List.mem_cons_self i rest, by rw [htn, h2], h3⟩
    · exact Or.inr ⟨j, List.mem_cons_of_mem i hj, hjn, hjv⟩

/-- Completeness of the input loop: keys of the accumulator survive, and
every input of the list with a truthy name puts that name into the final
dict. -/
theorem formStep_foldl_complete (inputs : List DzInput) :
    ∀ acc : Params,
      (∀ n w, (n, w) ∈ acc → ∃ w2, (n, w2) ∈ inputs.foldl formStep acc) ∧
      (∀ i ∈ inputs, ∀ n, truthyName i = some n →
        ∃ w, (n, w) ∈ inputs.foldl formStep acc) := by
  induction inputs with
  | nil =>
    refine fun acc => ⟨fun n w h => ⟨w, h⟩, fun i hi => absurd hi (List.not_mem_nil i)⟩
  | cons i rest ih =>
    intro acc
    have hstable : ∀ n w, (n, w) ∈ formStep acc i →
        ∃ w2, (n, w2) ∈ (i :: rest).foldl formStep acc := by
      intro n w h
      rw [List.foldl_cons]
      exact (ih (formStep acc i)).1 n w h
    constructor
    · intro n w h
      cases htn : truthyName i with
      | none => exact hstable n w (by rw [formStep_truthy, htn]; exact h)
      | some k =>
          obtain ⟨w2, h2⟩ := dictInsert_key_stable acc k (i.value.getD "") n w h
          exact hstable n w2 (by rw [formStep_truthy, htn]; exact h2)
    · intro j hj n hjn
      rcases List.mem_cons.mp hj with rfl | hj2
      · refine hstable n (j.value.getD "") ?_
        rw [formStep_truthy, hjn]
        exact mem_dictInsert_self acc n (j.value.getD "")
      · rw [List.foldl_cons]
        exact (ih (formStep acc i)).2 j hj2 n hjn

/-- When the truthy-named inputs carry pairwise distinct names, the input
loop appends each such pair in document order after the accumulator. -/
theorem formStep_foldl_nodup (inputs : List DzInput) :
    ∀ acc : Params,
      (∀ p ∈ acc, ∀ i ∈ inputs, ∀ n, truthyName i = some n → p.1 ≠ n) →
      (inputs.filterMap truthyName).Nodup →
      inputs.foldl formStep acc =
        acc ++ inputs.filterMap
          (fun i => (truthyName i).map (fun n => (n, i.value.getD ""))) := by
  induction inputs with
  | nil => intro acc _ _; simp
  | cons i rest ih =>
    intro acc hdisj hnodup
    rw [List.foldl_cons]
    cases htn : truthyName i with
    | none =>
      have hstep : formStep acc i = acc := by rw [formStep_truthy, htn]
      rw [hstep, List.filterMap_cons, htn]
      have hdisj2 : ∀ p ∈ acc, ∀ j ∈ rest, ∀ n, truthyName j = some n → p.1 ≠ n :=
        fun p hp j hj n hjn => hdisj p hp j (List.mem_cons_of_mem i hj) n hjn
      have hnodup2 : (rest.filterMap truthyName).Nodup := by
        rw [List.filterMap_cons, htn] at hnodup
        exact hnodup
      exact ih acc hdisj2 hnodup2
    | some k =>
      have hfresh : ∀ p ∈ acc, p.1 ≠ k :=
        fun p hp => hdisj p hp i (List.mem_cons_self i rest) k htn
      have hstep : formStep acc i = acc ++ [(k, i.value.getD "")] := by
        rw [formStep_truthy, htn]
        exact dictInsert_of_fresh acc k (i.value.getD "") hfresh
      rw [List.filterMap_cons, htn] at hnodup
      have hknotin : k ∉ rest.filterMap truthyName := (List.nodup_cons.mp hnodup).1
      have hnodup2 : (rest.filterMap truthyName).Nodup := (List.nodup_cons.mp hnodup).2
      have hdisj2 : ∀ p ∈ acc ++ [(k, i.value.getD "")],
          ∀ j ∈ rest, ∀ n, truthyName j = some n → p.1 ≠ n := by
        intro p hp j hj n hjn
        rcases List.mem_append.mp hp with hp1 | hp1
        · exact hdisj p hp1 j (List.mem_cons_of_mem i hj) n hjn
        · have hpk : p.1 = k := congrArg Prod.fst (List.mem_singleton.mp hp1)
          rw [hpk]
          intro hkn
          exact hknotin (hkn ▸ List.mem_filterMap.mpr ⟨j, hj, hjn⟩)
      rw [hstep, ih (acc ++ [(k, i.value.getD "")]) hdisj2 hnodup2,
        List.filterMap_cons, htn]
      simp

/-- C6: form-parameter extraction returns exactly the map from each named
input to its value: nothing is invented (every extracted pair comes from an
input whose name attribute is present and nonempty, with a missing value
read as the empty string), no such input is dropped, inputs whose name is
absent — or present but empty, which the Python truthiness check also
treats as no name — are skipped, and when the truthy names are pairwise
distinct the result is precisely their name-to-value list in document
order. -/
theorem extract_form_params_exact (soup : Soup) (selector : String)
    (form : DzForm) (hsel : soup selector = some form) :
    (∀ n w, (n, w) ∈ extract_form_params soup selector →
      ∃ i ∈ form.inputs, i.name = some n ∧ n ≠ "" ∧ w = i.value.getD "") ∧
    (∀ i ∈ form.inputs, ∀ n, i.name = some n → n ≠ "" →
      ∃ w, (n, w) ∈ extract_form_params soup selector) ∧
    ((form.inputs.filterMap truthyName).Nodup →
      extract_form_params soup selector =
        form.inputs.filterMap
          (fun i => (truthyName i).map (fun n => (n, i.value.getD "")))) := by
  have hunfold : extract_form_params soup selector = form.inputs.foldl formStep [] := by
    rw [extract_form_params, hsel]
  refine ⟨?_, ?_, ?_⟩
  · intro n w h
    rw [hunfold] at h
    rcases formStep_foldl_sound form.inputs [] n w h with h1 | ⟨i, hi, htn, hv⟩
    · exact absurd h1 (List.not_mem_nil (n, w))
    · obtain ⟨hn1, hn2⟩ := (truthyName_eq_some i n).mp htn
      exact ⟨i, hi, hn1, hn2, hv⟩
  · intro i hi n hin hne
    rw [hunfold]
    exact (formStep_foldl_complete form.inputs []).2 i hi n
      ((truthyName_eq_some i n).mpr ⟨hin, hne⟩)
  · intro hnodup
    rw [hunfold]
    have := formStep_foldl_nodup form.inputs []
      (fun p hp => absurd hp (List.not_mem_nil p)) hnodup
    rw [this, List.nil_append]

/-- The concrete parsed document used by the C6 witness: the selector
resolves to a form with a filled hidden token, an empty-valued input, a
nameless input and an input whose name attribute is present but empty. -/
def soupC6 : Soup := fun s =>
  if s = "#f" then
    some ⟨Option.none,
      [⟨some "csrf_token", some "abc"⟩, ⟨some "note", Option.none⟩,
       ⟨Option.none, some "junk"⟩, ⟨some "", some "ghost"⟩]⟩
  else Option.none

/-- Witness for C6: on the concrete form the extraction yields exactly the
hidden token and the empty-valued field, skipping both the nameless input
and the one with the empty name attribute. -/
theorem extract_form_params_exact_witness :
    extract_form_params soupC6 "#f" = [("csrf_token", "abc"), ("note", "")] := by
  have h := (extract_form_params_exact soupC6 "#f"
    ⟨Option.none,
      [⟨some "csrf_token", some "abc"⟩, ⟨some "note", Option.none⟩,
       ⟨Option.none, some "junk"⟩, ⟨some "", some "ghost"⟩]⟩ rfl).2.2 (by decide)
  rw [h]
  rfl

/-- The first HTTP request sign() issues: the GET of the sign page. -/
def signReq1 (baseUrl : String) (kw : FetchKwargs) : FetchRequest :=
  prepareFetch (signUrl baseUrl) Option.none "GET" kw

/-- The parsed first response of sign(). -/
def signSoup (env : HttpEnv) (parse : String → Soup) (baseUrl : String)
    (kw : FetchKwargs) : Soup :=
  parse (env.resp (signReq1 baseUrl kw))

/-- The second HTTP request sign() issues on the not-yet-signed path: the
assembled parameters posted to the resolved form action. -/
def signReq2 (env : HttpEnv) (parse : String → Soup) (baseUrl formName : String)
    (kw : FetchKwargs) : FetchRequest :=
  prepareFetch (signAction baseUrl (signSoup env parse baseUrl kw) formName)
    (some (signParams (signSoup env parse baseUrl kw) formName)) "GET" kw

/-- C3: when the first response of sign() already carries the already-signed
marker (and the session is valid, so request() returned that body), sign()
returns the marker and the total HTTP call count is exactly one; otherwise
sign() issues exactly one more call, a POST of the extracted form fields
plus the fixed todaysay parameter to the form action resolved against the
base url with the inajax marker appended. -/
theorem sign_idempotent_short_circuit (env : HttpEnv) (parse : String → Soup)
    (baseUrl signText formName : String) (kw : FetchKwargs)
    (hauth : containsSub "action=logout" (env.resp (signReq1 baseUrl kw)) = true) :
    (containsSub signText (env.resp (signReq1 baseUrl kw)) = true →
      sign_run env parse baseUrl signText formName kw =
        Except.ok (signText, [signReq1 baseUrl kw])) ∧
    (containsSub signText (env.resp (signReq1 baseUrl kw)) = false →
      sign_run env parse baseUrl signText formName kw =
        Except.ok (env.resp (signReq2 env parse baseUrl formName kw),
          [signReq1 baseUrl kw, signReq2 env parse baseUrl formName kw]) ∧
      (signReq2 env parse baseUrl formName kw).method = "POST" ∧
      (signReq2 env parse baseUrl formName kw).url =
        signAction baseUrl (signSoup env parse baseUrl kw) formName ∧
      (signReq2 env parse baseUrl formName kw).data =
        some (signParams (signSoup env parse baseUrl kw) formName)) := by
  have h1 : request_log env [] (signUrl baseUrl) Option.none "GET" kw =
      Except.ok (env.resp (signReq1 baseUrl kw), [signReq1 baseUrl kw]) := by
    simp only [signReq1] at hauth
    simp [request_log, fetch, hauth, signReq1]
  constructor
  · intro hsigned
    simp only [sign_run, h1]
    simp [hsigned]
  · intro hunsigned
    refine ⟨?_, ?_, ?_, ?_⟩
    · simp only [sign_run, h1]
      simp [hunsigned, fetch, signReq2, signSoup]
    · simp [signReq2, prepareFetch, signParams, dataTruthy_dictInsert]
    · rfl
    · rfl

/-- The parser oracle that finds no form anywhere. -/
def parseNone : String → Soup := fun _ _ => Option.none

/-- Transport for the signed branch of the C3 witness: the sign page body
carries the logout marker and the already-signed marker. -/
def envSignedC3 : HttpEnv := ⟨fun _ => "action=logout DONE"⟩

/-- Transport for the unsigned branch of the C3 witness: the sign page body
carries the logout marker but not the already-signed marker, and any other
url answers with a distinct body. -/
def envUnsignedC3 : HttpEnv :=
  ⟨fun r => if r.url = signUrl "http://s" then "action=logout p" else "action=logout R"⟩

/-- Witness for C3: one call and the marker back on the already-signed
branch, two calls with a POST of the assembled parameters otherwise. -/
theorem sign_idempotent_short_circuit_witness :
    sign_run envSignedC3 parseNone "http://s" "DONE" "#q" FetchKwargs.none =
      Except.ok ("DONE", [signReq1 "http://s" FetchKwargs.none]) ∧
    sign_run envUnsignedC3 parseNone "http://s" "DONE" "#q" FetchKwargs.none =
      Except.ok (envUnsignedC3.resp (signReq2 envUnsignedC3 parseNone "http://s" "#q" FetchKwargs.none),
        [signReq1 "http://s" FetchKwargs.none,
         signReq2 envUnsignedC3 parseNone "http://s" "#q" FetchKwargs.none]) ∧
    (signReq2 envUnsignedC3 parseNone "http://s" "#q" FetchKwargs.none).method = "POST" :=
  ⟨(sign_idempotent_short_circuit envSignedC3 parseNone "http://s" "DONE" "#q"
      FetchKwargs.none (by decide)).1 (by decide),
   ((sign_idempotent_short_circuit envUnsignedC3 parseNone "http://s" "DONE" "#q"
      FetchKwargs.none (by decide)).2 (by decide)).1,
   ((sign_idempotent_short_circuit envUnsignedC3 parseNone "http://s" "DONE" "#q"
      FetchKwargs.none (by decide)).2 (by decide)).2.1⟩

/-- Sampling draws exactly the requested number of uids. -/
theorem sampleUids_length (uidList : List String) (pick : Nat → Nat) (n : Nat) :
    (sampleUids uidList pick n).length = n := by
  simp [sampleUids]

/-- Every sampled uid belongs to the scanned population (sampling is with
replacement from the full list). -/
theorem sampleUids_mem (uidList : List String) (pick : Nat → Nat) (n : Nat)
    (hne : uidList ≠ []) : ∀ u ∈ sampleUids uidList pick n, u ∈ uidList := by
  intro u hu
  obtain ⟨i, _, hi⟩ := List.mem_map.mp hu
  have hpos : 0 < uidList.length := List.length_pos.mpr hne
  have hlt : pick i % uidList.length < uidList.length := Nat.mod_lt _ hpos
  rw [List.getD_eq_getElem uidList "" hlt] at hi
  exact hi ▸ List.getElem_mem hlt

/-- C4: with a scanned population of at most MIN_USER_COUNT = 2 uids,
views() returns its no-users sentinel and poke() the empty outcome, and
neither dispatches any per-uid HTTP work; with a larger population, views()
samples exactly VIEW_COUNT = 11 uids and poke() exactly POKE_DEFAULT_NUM =
10 (the defaults), every sample drawn from the population with replacement
(the random generator is the external uniform chooser). -/
theorem views_poke_population_guard (env : HttpEnv) (parse : String → Soup)
    (scanUids : String → List String) (pick : Nat → Nat)
    (baseUrl successText : String) (kw : FetchKwargs) (uids : List String)
    (hget : get_users env scanUids baseUrl kw = Except.ok uids) :
    (uids.length ≤ MIN_USER_COUNT →
      views_run env scanUids pick baseUrl kw = Except.ok ("No users found", []) ∧
      poke_run env parse scanUids pick baseUrl successText Option.none
        Option.none kw = Except.ok ([], [])) ∧
    (MIN_USER_COUNT < uids.length →
      ∃ urls msgs sel,
        views_run env scanUids pick baseUrl kw =
          Except.ok ("Viewed " ++ toString VIEW_COUNT ++ " user profiles", urls) ∧
        urls.length = VIEW_COUNT ∧ VIEW_COUNT = 11 ∧
        (∀ u ∈ urls, ∃ uid ∈ uids,
          u = baseUrl ++ "/space-uid-" ++ uid ++ ".html") ∧
        poke_run env parse scanUids pick baseUrl successText Option.none
          Option.none kw = Except.ok (msgs, sel) ∧
        sel.length = POKE_DEFAULT_NUM ∧ POKE_DEFAULT_NUM = 10 ∧
        (∀ u ∈ sel, u ∈ uids)) := by
  constructor
  · intro hle
    constructor
    · simp only [views_run, hget]
      rw [if_pos hle]
    · simp only [poke_run, hget]
      rw [if_pos hle]
  · intro hgt
    have hne : uids ≠ [] := by
      intro h0
      rw [h0] at hgt
      exact absurd hgt (by simp [MIN_USER_COUNT])
    have hnotle : ¬ uids.length ≤ MIN_USER_COUNT := not_le.mpr hgt
    refine ⟨(sampleUids uids pick VIEW_COUNT).map
        (fun uid => baseUrl ++ "/space-uid-" ++ uid ++ ".html"),
      ((sampleUids uids pick POKE_DEFAULT_NUM).zip
          ((sampleUids uids pick POKE_DEFAULT_NUM).map
            (fun uid => send_poke env parse baseUrl uid POKE_DEFAULT_ICONID
              successText kw))).filterMap
        (fun p =>
          match p.2 with
          | Except.ok true => some (pokeMsg p.1)
          | _ => Option.none),
      sampleUids uids pick POKE_DEFAULT_NUM, ?_, ?_, rfl, ?_, ?_, ?_, rfl, ?_⟩
    · simp only [views_run, hget]
      rw [if_neg hnotle, sampleUids_length]
    · rw [List.length_map, sampleUids_length]
    · intro u hu
      obtain ⟨uid, huid, he⟩ := List.mem_map.mp hu
      exact ⟨uid, sampleUids_mem uids pick VIEW_COUNT hne uid huid, he.symm⟩
    · simp only [poke_run, hget]
      rw [if_neg hnotle]
      rfl
    · exact sampleUids_length uids pick POKE_DEFAULT_NUM
    · exact sampleUids_mem uids pick POKE_DEFAULT_NUM hne

/-- A scan oracle finding a two-uid population. -/
def scanTwo : String → List String := fun _ => ["1", "2"]

/-- A scan oracle finding a three-uid population. -/
def scanThree : String → List String := fun _ => ["1", "2", "3"]

/-- The identity draw sequence for the random oracle. -/
def pickId : Nat → Nat := fun i => i

/-- The eleven profile urls views() visits in the C4 witness run. -/
def viewUrlsC4 : List String :=
  (sampleUids ["1", "2", "3"] pickId VIEW_COUNT).map
    (fun uid => "http://s" ++ "/space-uid-" ++ uid ++ ".html")

/-- Witness for C4: the guard fires on a two-uid population for both
operations, and an eleven-url view fan-out happens on a three-uid one. -/
theorem views_poke_population_guard_witness :
    views_run envLogout scanTwo pickId "http://s" FetchKwargs.none =
      Except.ok ("No users found", []) ∧
    poke_run envLogout parseNone scanTwo pickId "http://s" "OK" Option.none
      Option.none FetchKwargs.none = Except.ok ([], []) ∧
    views_run envLogout scanThree pickId "http://s" FetchKwargs.none =
      Except.ok ("Viewed 11 user profiles", viewUrlsC4) := by
  have hsmall := views_poke_population_guard envLogout parseNone scanTwo pickId
    "http://s" "OK" FetchKwargs.none ["1", "2"] (by rfl)
  have hbig := (views_poke_population_guard envLogout parseNone scanThree pickId
    "http://s" "OK" FetchKwargs.none ["1", "2", "3"] (by rfl)).2 (by decide)
  obtain ⟨urls, msgs, sel, hv, _⟩ := hbig
  exact ⟨(hsmall.1 (by decide)).1, (hsmall.1 (by decide)).2, by rfl⟩

/-- Whether one per-uid poke sub-operation completed without exception and
with the success marker in its response body. -/
def pokeSucceeded (env : HttpEnv) (parse : String → Soup)
    (baseUrl uid : String) (iconid : Nat) (successText : String)
    (kw : FetchKwargs) : Bool :=
  match send_poke env parse baseUrl uid iconid successText kw with
  | Except.ok true => true
  | _ => false

/-- Zipping a list with its own map pairs each element with its image. -/
theorem zip_map_filterMap {α β γ : Type} (l : List α) (f : α → β)
    (g : α × β → Option γ) :
    (l.zip (l.map f)).filterMap g = l.filterMap (fun a => g (a, f a)) := by
  induction l with
  | nil => rfl
  | cons a rest ih => simp [List.filterMap_cons, ih]

/-- A filterMap whose function is a guard is the filter followed by the
map. -/
theorem filterMap_guard_eq_filter_map {α γ : Type} (l : List α) (p : α → Bool)
    (m : α → γ) :
    l.filterMap (fun a => if p a then some (m a) else Option.none) =
      (l.filter p).map m := by
  induction l with
  | nil => rfl
  | cons a rest ih =>
    by_cases hp : p a = true
    · simp [List.filterMap_cons, List.filter_cons, hp, ih]
    · simp [List.filterMap_cons, List.filter_cons, hp, ih]

/-- The branch poke() applies to one gathered result, rewritten as a guard
on the sub-operation outcome. -/
theorem pokeStep_eq_guard (env : HttpEnv) (parse : String → Soup)
    (baseUrl : String) (iconid : Nat) (successText : String) (kw : FetchKwargs)
    (uid : String) :
    (match send_poke env parse baseUrl uid iconid successText kw with
      | Except.ok true => some (pokeMsg uid)
      | _ => Option.none) =
    (if pokeSucceeded env parse baseUrl uid iconid successText kw then
      some (pokeMsg uid) else Option.none) := by
  unfold pokeSucceeded
  cases hsp : send_poke env parse baseUrl uid iconid successText kw with
  | error e => simp
  | ok b => cases b <;> simp

/-- C2: on a usable population, poke() returns its confirmation strings in
exactly the positions of the sampled uids whose sub-operation completed
without exception and with the success marker: the result is the sampled
list filtered to the succeeding uids and rendered, so its length is the
count K of succeeding sub-operations, every confirmation references the
sampled uid its result was paired with (pairing is positional: result i is
the sub-operation of sampled uid i), and an exception in one sub-operation
only drops that uid from the output without failing poke() or its
siblings. -/
theorem poke_isolates_and_pairs (env : HttpEnv) (parse : String → Soup)
    (scanUids : String → List String) (pick : Nat → Nat)
    (baseUrl successText : String) (kw : FetchKwargs) (uids : List String)
    (hget : get_users env scanUids baseUrl kw = Except.ok uids)
    (hgt : MIN_USER_COUNT < uids.length) :
    poke_run env parse scanUids pick baseUrl successText Option.none
        Option.none kw =
      Except.ok
        (((sampleUids uids pick POKE_DEFAULT_NUM).filter
            (fun uid => pokeSucceeded env parse baseUrl uid POKE_DEFAULT_ICONID
              successText kw)).map pokeMsg,
         sampleUids uids pick POKE_DEFAULT_NUM) ∧
    (((sampleUids uids pick POKE_DEFAULT_NUM).filter
        (fun uid => pokeSucceeded env parse baseUrl uid POKE_DEFAULT_ICONID
          successText kw)).map pokeMsg).length =
      (sampleUids uids pick POKE_DEFAULT_NUM).countP
        (fun uid => pokeSucceeded env parse baseUrl uid POKE_DEFAULT_ICONID
          successText kw) := by
  constructor
  · simp only [poke_run, hget]
    rw [if_neg (not_le.mpr hgt)]
    have hz := zip_map_filterMap (sampleUids uids pick POKE_DEFAULT_NUM)
      (fun uid => send_poke env parse baseUrl uid POKE_DEFAULT_ICONID successText kw)
      (fun p =>
        match p.2 with
        | Except.ok true => some (pokeMsg p.1)
        | _ => Option.none)
    rw [show orDefaultNat Option.none POKE_DEFAULT_NUM = POKE_DEFAULT_NUM from rfl,
      show orDefaultNat Option.none POKE_DEFAULT_ICONID = POKE_DEFAULT_ICONID from rfl,
      hz]
    simp only [pokeStep_eq_guard]
    rw [filterMap_guard_eq_filter_map]
  · rw [List.length_map, List.countP_eq_length_filter]

/-- Transport for the C2 witness: the poke page of uid 2 lacks the logout
marker (its sub-operation raises), the poke POST of uid 3 answers without
the success marker (a non-success), and every other call succeeds. -/
def envC2 : HttpEnv :=
  ⟨fun r =>
    if r.url = "http://s/home.php?mod=spacecp&ac=poke&op=send&uid=2" then "nope"
    else if r.url = "http://s/home.php?mod=spacecp&ac=poke&op=send&uid=3&inajax=1" then
      "action=logout no"
    else "action=logout SENT"⟩

/-- Witness for C2: out of ten sampled uids over the population 1,2,3 the
four samples of uid 1 succeed, every sample of uid 2 raises, every sample
of uid 3 misses the marker, so exactly four confirmations come back, all
for uid 1, and poke() itself still returns normally. -/
theorem poke_isolates_and_pairs_witness :
    poke_run envC2 parseNone scanThree pickId "http://s" "SENT" Option.none
        Option.none FetchKwargs.none =
      Except.ok ([pokeMsg "1", pokeMsg "1", pokeMsg "1", pokeMsg "1"],
        ["1", "2", "3", "1", "2", "3", "1", "2", "3", "1"]) ∧
    pokeSucceeded envC2 parseNone "http://s" "2" POKE_DEFAULT_ICONID "SENT"
      FetchKwargs.none = false := by
  have h := (poke_isolates_and_pairs envC2 parseNone scanThree pickId "http://s"
    "SENT" FetchKwargs.none ["1", "2", "3"] (by rfl) (by decide)).1
  rw [h]
  exact ⟨by rfl, by rfl⟩

/-- run() always reaches the finally clause: close is invoked on every
path. -/
theorem run_closeCalled (env : RunEnv) : (run env).closeCalled = true := by
  cases hc : env.close <;> simp [run, hc]

/-- The log run() returns is the log of its try block, whatever close
does. -/
theorem run_logs_eq_runBody (env : RunEnv) : (run env).logs = runBody env := by
  cases hc : env.close <;> simp [run, hc]

/-- C5: when the store connect and the record query succeed, every record
of the batch gets its processing log line and a per-record outcome line —
a handler exception for one record is caught, logged for that record alone,
and does not stop the remaining records — and the close step of the finally
clause is invoked on every path out of run(). -/
theorem run_isolates_records_and_releases (env : RunEnv)
    (provs : List (String × ProviderData))
    (hconn : env.connect = Except.ok ())
    (hget : env.getProviders = Except.ok provs) :
    (run env).closeCalled = true ∧
    ∀ p ∈ provs,
      LogEntry.processing p.1 ∈ (run env).logs ∧
      ((∃ e, LogEntry.handlerException p.1 e ∈ (run env).logs) ∨
       (∃ m, LogEntry.success p.1 m ∈ (run env).logs) ∨
       (∃ m er, LogEntry.failure p.1 m er ∈ (run env).logs)) := by
  refine ⟨run_closeCalled env, ?_⟩
  intro p hp
  have hne : provs ≠ [] := List.ne_nil_of_mem hp
  have hbody : runBody env = (provs.map (processRecord env)).flatten := by
    cases provs with
    | nil => exact absurd rfl hne
    | cons q rest => simp [runBody, hconn, hget]
  have hsub : ∀ x ∈ processRecord env p, x ∈ (run env).logs := by
    intro x hx
    rw [run_logs_eq_runBody, hbody]
    exact List.mem_flatten.mpr ⟨processRecord env p, List.mem_map_of_mem _ hp, hx⟩
  constructor
  · exact hsub (LogEntry.processing p.1) (by simp [processRecord])
  · cases hh : env.handler p.1 p.2 with
    | error e =>
        exact Or.inl ⟨e, hsub _ (by simp [processRecord, hh])⟩
    | ok res =>
        by_cases hs : res.success = true
        · exact Or.inr (Or.inl ⟨res.message, hsub _ (by simp [processRecord, hh, hs])⟩)
        · exact Or.inr (Or.inr ⟨res.message, res.error,
            hsub _ (by simp [processRecord, hh, hs])⟩)

/-- The three-record batch of the C5 witness, with the middle handler
raising. -/
def envC5 : RunEnv :=
  ⟨"T", Except.ok (),
   Except.ok [("acct1", []), ("acct2", []), ("acct3", [])],
   fun n _ =>
     if n = "acct2" then Except.error "boom"
     else Except.ok (HandlerResult.ok "done" Option.none),
   Except.ok ()⟩

/-- Witness for C5: with the acct2 handler raising in a batch of three,
acct1 and acct3 are still processed and reported, the exception is logged
against acct2 alone, and close is invoked. -/
theorem run_isolates_records_and_releases_witness :
    (run envC5).closeCalled = true ∧
    LogEntry.processing "acct1" ∈ (run envC5).logs ∧
    LogEntry.processing "acct2" ∈ (run envC5).logs ∧
    LogEntry.processing "acct3" ∈ (run envC5).logs ∧
    LogEntry.handlerException "acct2" "boom" ∈ (run envC5).logs ∧
    LogEntry.success "acct1" "done" ∈ (run envC5).logs ∧
    LogEntry.success "acct3" "done" ∈ (run envC5).logs := by
  have h := run_isolates_records_and_releases envC5
    [("acct1", []), ("acct2", []), ("acct3", [])] rfl rfl
  refine ⟨h.1, (h.2 ("acct1", []) (by decide)).1, (h.2 ("acct2", []) (by decide)).1,
    (h.2 ("acct3", []) (by decide)).1, by decide, by decide, by decide⟩

/-- Counterexample to C9 as stated: an exception raised by the resource
release in the finally clause is not caught inside run() and propagates to
the caller. -/
def envC9close : RunEnv :=
  ⟨"T", Except.ok (), Except.ok [],
   fun _ _ => Except.ok (HandlerResult.ok "m" Option.none),
   Except.error "close failed"⟩

/-- C9 counterexample: with a close step that raises, run() propagates that
exception instead of returning normally. -/
theorem run_propagates_close_failure :
    (run envC9close).raised = some "close failed" := by rfl

/-- C9 as amended: every exception raised during store connect, the record
query or the batch loop is caught inside run(), which then returns normally
(nothing propagates) whenever the resource release itself does not raise. -/
theorem run_swallows_try_block_errors (env : RunEnv)
    (hclose : env.close = Except.ok ()) : (run env).raised = Option.none := by
  simp [run, hclose]

/-- A run environment whose every step, including close, succeeds. -/
def envC9ok : RunEnv :=
  ⟨"T", Except.error "store down", Except.ok [],
   fun _ _ => Except.ok (HandlerResult.ok "m" Option.none),
   Except.ok ()⟩

/-- Witness for the amended C9: even with the store connect raising, run()
returns normally, surfacing the failure only as a log line. -/
theorem run_swallows_try_block_errors_witness :
    (run envC9ok).raised = Option.none ∧
    (run envC9ok).logs = [LogEntry.errorInRun "store down"] :=
  ⟨run_swallows_try_block_errors envC9ok rfl, rfl⟩

/-- C8: a missing or empty MONGO_URL is fatal at store-handle construction:
the process aborts with the ValueError before run() starts, so no record is
ever processed. -/
theorem mongo_url_missing_fatal (mongoUrl : Option String) (env : RunEnv)
    (h : mongoUrl = Option.none ∨ mongoUrl = some "") :
    startProcess mongoUrl env =
      Except.error "Environment variable MONGO_URL is not set" := by
  rcases h with h | h <;> subst h <;> rfl

/-- Witness for C8 at both falsy shapes of the environment variable. -/
theorem mongo_url_missing_fatal_witness :
    startProcess Option.none envC9ok =
      Except.error "Environment variable MONGO_URL is not set" ∧
    startProcess (some "") envC9ok =
      Except.error "Environment variable MONGO_URL is not set" :=
  ⟨mongo_url_missing_fatal Option.none envC9ok (Or.inl rfl),
   mongo_url_missing_fatal (some "") envC9ok (Or.inr rfl)⟩

/-- C10: the falsy-fallback defaulting in poke() does not honor explicit
zeros: poke_num=0 resolves to the class default 10 and iconid=0 to the
class default 3, so a poke(0, 0) call behaves exactly like a defaulted call
and still samples and contacts 10 uids when the population allows it. -/
theorem poke_zero_args_fall_back (env : HttpEnv) (parse : String → Soup)
    (scanUids : String → List String) (pick : Nat → Nat)
    (baseUrl successText : String) (kw : FetchKwargs) (uids : List String)
    (hget : get_users env scanUids baseUrl kw = Except.ok uids)
    (hgt : MIN_USER_COUNT < uids.length) :
    orDefaultNat (some 0) POKE_DEFAULT_NUM = 10 ∧
    orDefaultNat (some 0) POKE_DEFAULT_ICONID = 3 ∧
    poke_run env parse scanUids pick baseUrl successText (some 0) (some 0) kw =
      poke_run env parse scanUids pick baseUrl successText Option.none
        Option.none kw ∧
    ∃ msgs sel,
      poke_run env parse scanUids pick baseUrl successText (some 0) (some 0) kw =
        Except.ok (msgs, sel) ∧ sel.length = 10 := by
  refine ⟨rfl, rfl, rfl, ?_⟩
  refine ⟨((sampleUids uids pick POKE_DEFAULT_NUM).zip
      ((sampleUids uids pick POKE_DEFAULT_NUM).map
        (fun uid => send_poke env parse baseUrl uid POKE_DEFAULT_ICONID
          successText kw))).filterMap
      (fun p =>
        match p.2 with
        | Except.ok true => some (pokeMsg p.1)
        | _ => Option.none),
    sampleUids uids pick POKE_DEFAULT_NUM, ?_,
    sampleUids_length uids pick POKE_DEFAULT_NUM⟩
  simp only [poke_run, hget]
  rw [if_neg (not_le.mpr hgt)]
  rfl

/-- Witness for C10: poke(0, 0) over a three-uid population still samples
ten uids. -/
theorem poke_zero_args_fall_back_witness :
    orDefaultNat (some 0) POKE_DEFAULT_NUM = 10 ∧
    poke_run envC2 parseNone scanThree pickId "http://s" "SENT" (some 0)
        (some 0) FetchKwargs.none =
      poke_run envC2 parseNone scanThree pickId "http://s" "SENT" Option.none
        Option.none FetchKwargs.none := by
  have h := poke_zero_args_fall_back envC2 parseNone scanThree pickId "http://s"
    "SENT" FetchKwargs.none ["1", "2", "3"] (by rfl) (by decide)
  exact ⟨h.1, h.2.2.1⟩
